import Mathlib

/-
Verification of the detection IPC client of Hydraulicus/DroneDemo
(src/src/detection/detection_client.cpp) against its natural-language
specification.

The client is single-threaded; every operation is modelled as a pure
function from the client state and an explicit environment (the pending
messages on the control socket, the success of each send syscall, the
clock) to a result, a new client state, and observable effects.  The
control channel is a datagram-granularity stream (spec §6: each read
returns exactly one fixed-size message), so the pending input is a list
of events, where an event is either one full message or a zero-byte
read (peer closed).  Machine integers are modelled as Nat/Int: none of
the verified properties depend on overflow, and no arithmetic is done
on the float-typed fields (they are only copied), so they are carried
as Int values.
-/

namespace RobotVision

/-- Connection state of the client (src/src/core/detection_client.h). -/
inductive ConnectionState where
  | Disconnected
  | Connecting
  | Connected
  | Error
deriving DecidableEq, Repr

/-- Modelled from the spec: the one-byte message type tags of the wire
protocol (HANDSHAKE_REQUEST, HANDSHAKE_RESPONSE, HEARTBEAT, FRAME_READY,
DETECTION_RESULT, SHUTDOWN) are declared in the external
detector_protocol header, which is not under src/.  The spec fixes no
numeric values, only that the tags are distinct small integers; the
verified properties depend only on their distinctness. -/
def TAG_HANDSHAKE_REQUEST : Nat := 1

/-- Modelled from the spec: see TAG_HANDSHAKE_REQUEST. -/
def TAG_HANDSHAKE_RESPONSE : Nat := 2

/-- Modelled from the spec: see TAG_HANDSHAKE_REQUEST. -/
def TAG_HEARTBEAT : Nat := 3

/-- Modelled from the spec: see TAG_HANDSHAKE_REQUEST. -/
def TAG_FRAME_READY : Nat := 4

/-- Modelled from the spec: see TAG_HANDSHAKE_REQUEST. -/
def TAG_DETECTION_RESULT : Nat := 5

/-- Modelled from the spec: see TAG_HANDSHAKE_REQUEST. -/
def TAG_SHUTDOWN : Nat := 6

/-- Modelled from the spec: the byte size of the fixed-size
HandshakeResponse record (spec §6: each message type is a fixed-size
record).  The exact value lives in the external detector_protocol
header; claims only compare a read length against it. -/
def SIZEOF_HANDSHAKE_RESPONSE : Nat := 320

/-- Model information carried in the v2 handshake response
(detector_protocol ModelInfo, mirrored by ServerInfo in
src/src/core/detection_client.h).  The architecture-type tag is an
enumerated small integer. -/
structure ModelInfo where
  name : String
  description : String
  type : Nat
  input_width : Nat
  input_height : Nat
  num_classes : Nat
  model_size_bytes : Nat
  device : String
deriving DecidableEq, Repr

/-- ServerInfo cached by the client after a successful handshake
(src/src/core/detection_client.h). -/
structure ServerInfo where
  protocol_version : Nat
  accepted : Bool
  model_name : String
  model_description : String
  model_type : Nat
  model_input_width : Nat
  model_input_height : Nat
  num_classes : Nat
  model_size_bytes : Nat
  device : String
deriving DecidableEq, Repr

/-- Zero-initialized ServerInfo, the value of the member server_info_{}
before any handshake. -/
def ServerInfo.init : ServerInfo :=
  { protocol_version := 0, accepted := false, model_name := "",
    model_description := "", model_type := 0, model_input_width := 0,
    model_input_height := 0, num_classes := 0, model_size_bytes := 0,
    device := "" }

/-- One detection record (detector_protocol Detection).  The float
fields are only ever copied by the client, never computed with, so they
are carried as Int values. -/
structure Detection where
  label : String
  confidence : Int
  x : Int
  y : Int
  width : Int
  height : Int
deriving DecidableEq, Repr

/-- Body of a HandshakeResponse past the type tag (protocol v2 with
nested ModelInfo). -/
structure HandshakeResponseBody where
  protocol_version : Nat
  accepted : Bool
  model_info : ModelInfo
deriving DecidableEq, Repr

/-- One full message as delivered by a single recv on the control
channel.  The detections field of a DetectionResult message is the
fixed-capacity wire array; num_detections is the separately transmitted
count, which the wire does not force to be within capacity. -/
inductive Msg where
  | heartbeat (timestamp_ns : Nat)
  | detectionResult (frame_id : Nat) (inference_time_ms : Int)
      (num_detections : Nat) (detections : List Detection)
  | handshakeResponse (body : HandshakeResponseBody)
  | shutdown
  | other (tag : Nat)
deriving DecidableEq, Repr

/-- First byte of the wire encoding of a message: the type tag the
client dispatches on. -/
def Msg.tag : Msg → Nat
  | .heartbeat _ => TAG_HEARTBEAT
  | .detectionResult _ _ _ _ => TAG_DETECTION_RESULT
  | .handshakeResponse _ => TAG_HANDSHAKE_RESPONSE
  | .shutdown => TAG_SHUTDOWN
  | .other t => t

/-- One observable outcome of a read attempt on the control channel: a
full message, or a zero-byte read because the peer closed the
connection. -/
inductive Event where
  | msg (m : Msg)
  | closed
deriving DecidableEq, Repr

/-- FrameHeader at the start of the shared-memory region
(detector_protocol; the field set and write order are visible in
DetectionClientImpl::sendFrame). -/
structure FrameHeader where
  frame_id : Nat
  width : Nat
  height : Nat
  stride : Nat
  format : Nat
  timestamp_ns : Nat
deriving DecidableEq, Repr

/-- Contents of the mapped shared-memory region: the header followed by
the payload bytes. -/
structure ShmRegion where
  header : FrameHeader
  payload : List Nat
deriving DecidableEq, Repr

/-- Client configuration (src/src/core/detection_client.h). -/
structure DetectionClientConfig where
  socket_path : String
  shm_name : String
  connect_timeout_ms : Nat
  auto_reconnect : Bool
deriving DecidableEq, Repr

/-- The member state of DetectionClientImpl.  socket_open models
socket_fd_ being a valid descriptor (socket_fd_ >= 0); shm models
shm_ptr_ together with the mapped region contents (none = nullptr). -/
structure ClientState where
  config : DetectionClientConfig
  state : ConnectionState
  server_info : ServerInfo
  last_error : String
  socket_open : Bool
  shm : Option ShmRegion
deriving DecidableEq, Repr

/-- DetectionClientImpl::setError: records the message as the last
error. -/
def setError (st : ClientState) (e : String) : ClientState :=
  { st with last_error := e }

/-- DetectionClientImpl::cleanup: closes the socket and unmaps the
shared-memory region; touches nothing else. -/
def cleanup (st : ClientState) : ClientState :=
  { st with socket_open := false, shm := none }

/-- DetectionClientImpl::disconnect: best-effort Shutdown send (only
when Connected with an open socket; the Bool result records whether the
send was attempted), then cleanup, then state := Disconnected
unconditionally. -/
def disconnect (st : ClientState) : ClientState × Bool :=
  ({ cleanup st with state := ConnectionState.Disconnected },
   decide (st.state = ConnectionState.Connected) && st.socket_open)

/-- Environment of one handshake attempt: the send of the request can
fail, the wait for the response can time out, or a read returns n bytes
whose first byte is the given tag and whose bytes parse as the given
response body. -/
inductive HandshakeOutcome where
  | sendFail
  | timeout
  | read (n : Nat) (tag : Nat) (body : HandshakeResponseBody)
deriving DecidableEq, Repr

/-- Field-by-field store of the handshake response into ServerInfo
(DetectionClientImpl::performHandshake, lines 320-332). -/
def storeServerInfo (b : HandshakeResponseBody) : ServerInfo :=
  { protocol_version := b.protocol_version
    accepted := b.accepted
    model_name := b.model_info.name
    model_description := b.model_info.description
    model_type := b.model_info.type
    model_input_width := b.model_info.input_width
    model_input_height := b.model_info.input_height
    num_classes := b.model_info.num_classes
    model_size_bytes := b.model_info.model_size_bytes
    device := b.model_info.device }

/-- DetectionClientImpl::performHandshake: send the request, wait with
timeout, then check in order: full-size read, expected type tag,
accepted flag; on success store ServerInfo. -/
def performHandshake (hs : HandshakeOutcome) (st : ClientState) :
    Bool × ClientState :=
  match hs with
  | .sendFail => (false, setError st "Failed to send handshake request")
  | .timeout => (false, setError st "Handshake timeout")
  | .read n tag body =>
    if n ≠ SIZEOF_HANDSHAKE_RESPONSE then
      (false, setError st "Invalid handshake response")
    else if tag ≠ TAG_HANDSHAKE_RESPONSE then
      (false, setError st "Unexpected message type in handshake")
    else if !body.accepted then
      (false, setError st "Handshake rejected by server (protocol version mismatch?)")
    else
      (true, { st with server_info := storeServerInfo body })

/-- Environment of one connect attempt: whether the socket connect
succeeds, the result of opening the shared-memory region (with its
prior contents), and the handshake outcome. -/
structure ConnectEnv where
  socket_ok : Bool
  shm_region : Option ShmRegion
  handshake : HandshakeOutcome
deriving DecidableEq, Repr

/-- DetectionClientImpl::connect: early return when already Connected;
otherwise cleanup, state := Connecting, open socket, open shared
memory, handshake; any failure sets state Error (releasing resources on
the shm and handshake paths), success sets state Connected. -/
def connect (env : ConnectEnv) (st : ClientState) : Bool × ClientState :=
  if st.state = ConnectionState.Connected then
    (true, st)
  else
    let st1 := { cleanup st with state := ConnectionState.Connecting }
    if !env.socket_ok then
      (false, { setError st1 ("Failed to connect to server at " ++ st1.config.socket_path) with
                  state := ConnectionState.Error })
    else
      let st2 := { st1 with socket_open := true }
      match env.shm_region with
      | none =>
        (false, { cleanup (setError st2 ("Failed to open shared memory: " ++ st2.config.shm_name)) with
                    state := ConnectionState.Error })
      | some region =>
        let st3 := { st2 with shm := some region }
        let r := performHandshake env.handshake st3
        if !r.1 then
          (false, { cleanup r.2 with state := ConnectionState.Error })
        else
          (true, { r.2 with state := ConnectionState.Connected })

/-- The bounded peek-and-consume wait of
DetectionClientImpl::sendHeartbeat (the for loop over attempts, lines
124-166), with the remaining attempts as fuel.  An empty channel means
the 1 s select times out; a closed head means the peek returns zero
bytes; otherwise the head message's tag is peeked: a Heartbeat is
consumed and is success, a DetectionResult is consumed and discarded,
and any other message is discarded as a bounded chunk; both latter
cases loop. -/
def heartbeatLoop : Nat → ClientState → List Event →
    Bool × ClientState × List Event
  | 0, st, chan => (false, setError st "Too many non-heartbeat messages", chan)
  | n + 1, st, chan =>
    match chan with
    | [] => (false, setError st "Heartbeat timeout", chan)
    | Event.closed :: _ =>
      (false, setError st "Connection closed during heartbeat", chan)
    | Event.msg m :: rest =>
      if m.tag = TAG_HEARTBEAT then (true, st, rest)
      else if m.tag = TAG_DETECTION_RESULT then heartbeatLoop n st rest
      else heartbeatLoop n st rest

/-- DetectionClientImpl::sendHeartbeat: requires Connected, sends the
heartbeat (send_ok tells whether the send syscall succeeds), then runs
the bounded wait with 5 attempts. -/
def sendHeartbeat (send_ok : Bool) (st : ClientState) (chan : List Event) :
    Bool × ClientState × List Event :=
  if st.state ≠ ConnectionState.Connected then
    (false, setError st "Not connected", chan)
  else if !send_ok then
    (false, setError st "Failed to send heartbeat", chan)
  else
    heartbeatLoop 5 st chan

/-- The copy loop of DetectionClientImpl::receiveDetections (lines
266-268), reading entries i, i+1, ... of the wire array while n entries
remain; an index past the end of the fixed-capacity array is an
out-of-bounds read and yields none. -/
def copyFrom (arr : List Detection) : Nat → Nat → Option (List Detection)
  | _, 0 => some []
  | i, n + 1 =>
    match arr[i]? with
    | none => none
    | some d => (copyFrom arr (i + 1) n).map (fun l => d :: l)

/-- The full copy of num entries from index 0 of the wire array. -/
def copyDetections (arr : List Detection) (num : Nat) :
    Option (List Detection) :=
  copyFrom arr 0 num

/-- Result of one receiveDetections call: the boolean return, the new
client state, the remaining channel, and the final values of the three
out-parameters (the caller's detections vector and the frame_id and
inference_time_ms references, which keep their previous values on every
false-returning path). -/
structure RecvOut where
  result : Bool
  client : ClientState
  chan : List Event
  detections : List Detection
  frame_id : Nat
  inference_time_ms : Int
deriving DecidableEq, Repr

/-- DetectionClientImpl::receiveDetections: requires Connected;
zero-timeout select (empty channel means no data, a closed or pending
head means readable); a zero-byte read sets the error and drives state
to Disconnected; a full read of any message consumes it, and a type tag
other than DETECTION_RESULT returns false with the message already
consumed; a DetectionResult copies frame_id, inference_time_ms, clears
the caller's vector and pushes num_detections entries from the wire
array.  The outer none marks the run hitting an out-of-bounds read of
the wire array (undefined behavior in the C++ source); a message whose
tag equals TAG_DETECTION_RESULT but whose bytes are not a
DetectionResult record is likewise left undefined. -/
def receiveDetections (st : ClientState) (chan : List Event)
    (detections0 : List Detection) (frame_id0 : Nat) (time0 : Int) :
    Option RecvOut :=
  if st.state ≠ ConnectionState.Connected then
    some ⟨false, st, chan, detections0, frame_id0, time0⟩
  else
    match chan with
    | [] => some ⟨false, st, chan, detections0, frame_id0, time0⟩
    | Event.closed :: _ =>
      some ⟨false,
            { setError st "Server disconnected" with
                state := ConnectionState.Disconnected },
            chan, detections0, frame_id0, time0⟩
    | Event.msg m :: rest =>
      match m with
      | Msg.detectionResult fid t num arr =>
        match copyDetections arr num with
        | none => none
        | some l => some ⟨true, st, rest, l, fid, t⟩
      | m1 =>
        if m1.tag ≠ TAG_DETECTION_RESULT then
          some ⟨false, st, rest, detections0, frame_id0, time0⟩
        else
          none

/-
Concrete fixtures used by witnesses and counterexamples.
-/

/-- A concrete configuration (the default paths of the spec are
immaterial to every claim). -/
def cfg0 : DetectionClientConfig :=
  { socket_path := "/tmp/detector.sock", shm_name := "/detector_shm",
    connect_timeout_ms := 1000, auto_reconnect := true }

/-- A concrete all-zero frame header, the prior contents of the region
in the fixtures. -/
def header0 : FrameHeader :=
  { frame_id := 0, width := 0, height := 0, stride := 0, format := 0,
    timestamp_ns := 0 }

/-- A concrete mapped region with three known payload bytes. -/
def region0 : ShmRegion := { header := header0, payload := [7, 7, 7] }

/-- A concrete connected client with the fixture region mapped. -/
def stConn : ClientState :=
  { config := cfg0, state := ConnectionState.Connected,
    server_info := ServerInfo.init, last_error := "",
    socket_open := true, shm := some region0 }

/-- A concrete freshly constructed client (the member initializers of
DetectionClientImpl). -/
def stInit : ClientState :=
  { config := cfg0, state := ConnectionState.Disconnected,
    server_info := ServerInfo.init, last_error := "",
    socket_open := false, shm := none }

/-- A concrete accepted v2 handshake response body. -/
def body0 : HandshakeResponseBody :=
  { protocol_version := 2, accepted := true,
    model_info :=
      { name := "YOLOv8", description := "demo model", type := 2,
        input_width := 640, input_height := 640, num_classes := 80,
        model_size_bytes := 6291456, device := "Darwin-arm64" } }

/-- A concrete fully successful connect environment. -/
def env0 : ConnectEnv :=
  { socket_ok := true, shm_region := some region0,
    handshake := HandshakeOutcome.read SIZEOF_HANDSHAKE_RESPONSE
      TAG_HANDSHAKE_RESPONSE body0 }

/-
Claim theorems.
-/

/-- C5: calling connect when the state is already Connected returns
success, performs no new handshake (the result does not depend on the
environment in any way), and changes nothing in the client state:
state, error string, session info and held resources are all untouched. -/
theorem connect_idempotent_when_connected (env : ConnectEnv)
    (st : ClientState) (hc : st.state = ConnectionState.Connected) :
    connect env st = (true, st) := by
  unfold connect
  rw [if_pos hc]

/-- Witness for C5 at the concrete connected fixture. -/
theorem connect_idempotent_when_connected_witness :
    stConn.state = ConnectionState.Connected ∧
      connect env0 stConn = (true, stConn) :=
  ⟨by decide, connect_idempotent_when_connected env0 stConn (by decide)⟩

/-- C6: disconnect sets state Disconnected unconditionally and releases
the socket and the shared-memory mapping, from every starting state
(including after a failed connect); a second disconnect leaves the
state exactly as the first did, so consecutive calls are safe. -/
theorem disconnect_unconditional_and_idempotent (st : ClientState) :
    (disconnect st).1.state = ConnectionState.Disconnected ∧
    (disconnect st).1.socket_open = false ∧
    (disconnect st).1.shm = none ∧
    (disconnect (disconnect st).1).1 = (disconnect st).1 := by
  refine ⟨rfl, rfl, rfl, ?_⟩
  simp [disconnect, cleanup]

/-- C8: a zero-byte read in receiveDetections (peer closed) returns
false, records the retrievable error message "Server disconnected"
(non-empty), and sets state Disconnected — not Error — leaving the
out-parameters untouched. -/
theorem receiveDetections_peer_close (st : ClientState)
    (rest : List Event) (d0 : List Detection) (f0 : Nat) (t0 : Int)
    (hc : st.state = ConnectionState.Connected) :
    receiveDetections st (Event.closed :: rest) d0 f0 t0 =
      some ⟨false,
            { st with state := ConnectionState.Disconnected,
                      last_error := "Server disconnected" },
            Event.closed :: rest, d0, f0, t0⟩ ∧
    ("Server disconnected" ≠ "") ∧
    (ConnectionState.Disconnected ≠ ConnectionState.Error) := by
  refine ⟨?_, by decide, by decide⟩
  unfold receiveDetections
  rw [if_neg (by simp [hc])]
  rfl

/-- Witness for C8 at the concrete connected fixture. -/
theorem receiveDetections_peer_close_witness :
    stConn.state = ConnectionState.Connected ∧
      (receiveDetections stConn [Event.closed] [] 0 0 =
        some ⟨false,
              { stConn with state := ConnectionState.Disconnected,
                            last_error := "Server disconnected" },
              [Event.closed], [], 0, 0⟩ ∧
      ("Server disconnected" ≠ "") ∧
      (ConnectionState.Disconnected ≠ ConnectionState.Error)) :=
  ⟨by decide, receiveDetections_peer_close stConn [] [] 0 0 (by decide)⟩

/-- A concrete detection record. -/
def det0 : Detection :=
  { label := "person", confidence := 9, x := 1, y := 2, width := 3,
    height := 4 }

/-- A second concrete detection record. -/
def det1 : Detection :=
  { label := "car", confidence := 8, x := 0, y := 0, width := 1,
    height := 1 }

/-- The copy loop succeeds and returns exactly the n entries starting
at index i, in order, whenever they are all in bounds. -/
theorem copyFrom_in_bounds (arr : List Detection) :
    ∀ (n i : Nat), i + n ≤ arr.length →
      copyFrom arr i n = some ((arr.drop i).take n) := by
  intro n
  induction n with
  | zero => intro i _; simp [copyFrom]
  | succ n ih =>
    intro i h
    have hi : i < arr.length := by omega
    have hget : arr[i]? = some arr[i] := List.getElem?_eq_getElem hi
    have hrest : copyFrom arr (i + 1) n = some ((arr.drop (i + 1)).take n) :=
      ih (i + 1) (by omega)
    have hd : arr.drop i = arr[i] :: arr.drop (i + 1) :=
      List.drop_eq_getElem_cons hi
    rw [copyFrom, hget, hrest, hd, List.take_succ_cons]
    rfl

/-- The copy loop performs an out-of-bounds read (modelled as none) as
soon as the requested count reaches past the end of the array. -/
theorem copyFrom_out_of_bounds (arr : List Detection) :
    ∀ (n i : Nat), arr.length < i + n → 0 < n →
      copyFrom arr i n = none := by
  intro n
  induction n with
  | zero => intro i _ h0; omega
  | succ n ih =>
    intro i h _
    by_cases hi : i < arr.length
    · have hget : arr[i]? = some arr[i] := List.getElem?_eq_getElem hi
      rw [copyFrom, hget, ih (i + 1) (by omega) (by omega)]
      rfl
    · have hget : arr[i]? = none := by
        rw [List.getElem?_eq_none]
        omega
      rw [copyFrom, hget]

/-- copyDetections returns the first num entries of the wire array when
num is within the array's capacity. -/
theorem copyDetections_eq_take (arr : List Detection) (num : Nat)
    (h : num ≤ arr.length) :
    copyDetections arr num = some (arr.take num) := by
  have := copyFrom_in_bounds arr num 0 (by omega)
  simpa [copyDetections] using this

/-- copyDetections hits an out-of-bounds read when num exceeds the
array's capacity. -/
theorem copyDetections_out_of_bounds (arr : List Detection) (num : Nat)
    (h : arr.length < num) :
    copyDetections arr num = none := by
  have := copyFrom_out_of_bounds arr num 0 (by omega) (by omega)
  simpa [copyDetections] using this

/-- C2 counterexample: a connected client with exactly one pending
message whose tag is not DETECTION_RESULT (a Heartbeat reply).
receiveDetections returns false as the claim says, but the remaining
channel is empty: the heartbeat reply was consumed and discarded
destructively, so the in-flight reply IS lost, refuting the claim that
the message is not consumed. -/
theorem receiveDetections_consumes_foreign_counterexample :
    (Msg.heartbeat 5).tag ≠ TAG_DETECTION_RESULT ∧
    receiveDetections stConn [Event.msg (Msg.heartbeat 5)] [] 0 0 =
      some ⟨false, stConn, [], [], 0, 0⟩ ∧
    ([] : List Event) ≠ [Event.msg (Msg.heartbeat 5)] := by
  decide

/-- C2 amended: when the next pending message has a type tag other than
DetectionResult, receiveDetections returns false ("no result"), but the
message has already been read with a plain recv, so it IS destructively
consumed and discarded from the channel: the remaining channel is the
tail, and a heartbeat reply in flight is lost.  State, error string and
out-parameters are untouched. -/
theorem receiveDetections_foreign_type_consumed (st : ClientState)
    (m : Msg) (rest : List Event) (d0 : List Detection) (f0 : Nat)
    (t0 : Int) (hc : st.state = ConnectionState.Connected)
    (hm : m.tag ≠ TAG_DETECTION_RESULT) :
    receiveDetections st (Event.msg m :: rest) d0 f0 t0 =
      some ⟨false, st, rest, d0, f0, t0⟩ := by
  unfold receiveDetections
  rw [if_neg (by simp [hc])]
  cases m with
  | heartbeat ts => simp only []; rw [if_pos hm]
  | detectionResult fid t num arr => exact absurd rfl hm
  | handshakeResponse body => simp only []; rw [if_pos hm]
  | shutdown => simp only []; rw [if_pos hm]
  | other tag => simp only []; rw [if_pos hm]

/-- Witness for the C2 amended theorem at a concrete input. -/
theorem receiveDetections_foreign_type_consumed_witness :
    receiveDetections stConn [Event.msg Msg.shutdown] [det0] 3 4 =
      some ⟨false, stConn, [], [det0], 3, 4⟩ :=
  receiveDetections_foreign_type_consumed stConn Msg.shutdown [] [det0]
    3 4 (by decide) (by decide)

/-- C10: processing a DetectionResult message clears the caller's
vector (the previous contents d0 do not influence the output) and fills
it with exactly num_detections entries copied in order from the wire
array, together with the message's frame_id and inference time; the
loop indexes the array by the wire-supplied count without validating
it, so the run is free of out-of-bounds reads precisely when the count
does not exceed the array's capacity — beyond it, the read is
out-of-bounds (modelled as none). -/
theorem receiveDetections_result_copy (st : ClientState) (fid : Nat)
    (t : Int) (num : Nat) (arr : List Detection) (rest : List Event)
    (d0 : List Detection) (f0 : Nat) (t0 : Int)
    (hc : st.state = ConnectionState.Connected) :
    (num ≤ arr.length →
      receiveDetections st
          (Event.msg (Msg.detectionResult fid t num arr) :: rest) d0 f0 t0 =
        some ⟨true, st, rest, arr.take num, fid, t⟩) ∧
    (arr.length < num →
      receiveDetections st
          (Event.msg (Msg.detectionResult fid t num arr) :: rest) d0 f0 t0 =
        none) := by
  constructor
  · intro h
    unfold receiveDetections
    rw [if_neg (by simp [hc])]
    simp only [copyDetections_eq_take arr num h]
  · intro h
    unfold receiveDetections
    rw [if_neg (by simp [hc])]
    simp only [copyDetections_out_of_bounds arr num h]

/-- Witness for C10 at concrete inputs: a two-entry wire array with
count 1 copies exactly the first entry (clearing the previous vector
contents), and the same array with count 3 drives the loop out of
bounds. -/
theorem receiveDetections_result_copy_witness :
    (receiveDetections stConn
        (Event.msg (Msg.detectionResult 9 5 1 [det0, det1]) :: []) [det1] 0 0 =
      some ⟨true, stConn, [], [det0], 9, 5⟩) ∧
    (receiveDetections stConn
        (Event.msg (Msg.detectionResult 9 5 3 [det0, det1]) :: []) [det1] 0 0 =
      none) :=
  ⟨by
      have h := (receiveDetections_result_copy stConn 9 5 1 [det0, det1]
        [] [det1] 0 0 (by decide)).1 (by decide)
      simpa using h,
   (receiveDetections_result_copy stConn 9 5 3 [det0, det1]
      [] [det1] 0 0 (by decide)).2 (by decide)⟩

/-- C3 counterexample: a fresh client successfully connects (caching
the handshake's ServerInfo) and then disconnects.  After disconnect the
cached ServerInfo is still present and different from the
zero-initialized value: the session data is NOT discarded on
disconnect, refuting the claim. -/
theorem disconnect_keeps_server_info_counterexample :
    (connect env0 stInit).1 = true ∧
    (disconnect (connect env0 stInit).2).1.server_info =
      storeServerInfo body0 ∧
    storeServerInfo body0 ≠ ServerInfo.init := by
  decide

/-- The handshake failure modes named by the spec: no response within
the timeout, a short response, an unexpected message-type tag, and a
response with accepted == false.  (A failure to send the request is a
distinct mode not covered by the claim.) -/
def handshakeFailureMode : HandshakeOutcome → Bool
  | .sendFail => false
  | .timeout => true
  | .read n tag body =>
    (n != SIZEOF_HANDSHAKE_RESPONSE) || (tag != TAG_HANDSHAKE_RESPONSE) ||
      (!body.accepted)

/-- The intermediate client state inside connect after the socket and
the region were both acquired, just before the handshake. -/
def midState (st : ClientState) (region : ShmRegion) : ClientState :=
  { st with state := ConnectionState.Connecting, socket_open := true,
            shm := some region }

/-- Decomposition of connect when not already Connected and both the
socket and the region open successfully: the result is decided by the
handshake on the intermediate state. -/
theorem connect_eq_of_handshake (st : ClientState) (region : ShmRegion)
    (hs : HandshakeOutcome)
    (hnc : st.state ≠ ConnectionState.Connected) :
    connect ⟨true, some region, hs⟩ st =
      (if !(performHandshake hs (midState st region)).1 then
        (false,
         { cleanup (performHandshake hs (midState st region)).2 with
             state := ConnectionState.Error })
      else
        (true,
         { (performHandshake hs (midState st region)).2 with
             state := ConnectionState.Connected })) := by
  unfold connect
  rw [if_neg hnc]
  rfl

/-- Shape of a failed handshake in one of the spec's four failure
modes: result false, a non-empty error recorded, and state, socket and
region left as they were. -/
theorem performHandshake_fail_shape (hs : HandshakeOutcome)
    (st : ClientState) (hfail : handshakeFailureMode hs = true) :
    (performHandshake hs st).1 = false ∧
    (performHandshake hs st).2.last_error ≠ "" ∧
    (performHandshake hs st).2.state = st.state ∧
    (performHandshake hs st).2.socket_open = st.socket_open ∧
    (performHandshake hs st).2.shm = st.shm := by
  cases hs with
  | sendFail => simp [handshakeFailureMode] at hfail
  | timeout =>
    exact ⟨rfl, (by decide : ("Handshake timeout" : String) ≠ ""),
      rfl, rfl, rfl⟩
  | read n tag body =>
    have hred : performHandshake (HandshakeOutcome.read n tag body) st =
        (if n ≠ SIZEOF_HANDSHAKE_RESPONSE then
          (false, setError st "Invalid handshake response")
        else if tag ≠ TAG_HANDSHAKE_RESPONSE then
          (false, setError st "Unexpected message type in handshake")
        else if !body.accepted then
          (false, setError st "Handshake rejected by server (protocol version mismatch?)")
        else
          (true, { st with server_info := storeServerInfo body })) := rfl
    rw [hred]
    split_ifs with h1 h2 h3
    · exact ⟨rfl,
        (by decide : ("Invalid handshake response" : String) ≠ ""),
        rfl, rfl, rfl⟩
    · exact ⟨rfl,
        (by decide : ("Unexpected message type in handshake" : String) ≠ ""),
        rfl, rfl, rfl⟩
    · exact ⟨rfl,
        (by decide :
          ("Handshake rejected by server (protocol version mismatch?)" : String) ≠ ""),
        rfl, rfl, rfl⟩
    · exfalso
      have hn : n = SIZEOF_HANDSHAKE_RESPONSE := not_not.mp h1
      have ht : tag = TAG_HANDSHAKE_RESPONSE := not_not.mp h2
      subst hn
      subst ht
      simp only [handshakeFailureMode, bne_self_eq_false,
        Bool.false_or] at hfail
      exact h3 hfail

/-- Shape of a successful handshake: a full-size read with the right
tag and accepted set stores the ServerInfo built from the response
body, with no dependence on the previous ServerInfo. -/
theorem performHandshake_read_success (n tag : Nat)
    (body : HandshakeResponseBody) (st : ClientState)
    (h1 : n = SIZEOF_HANDSHAKE_RESPONSE)
    (h2 : tag = TAG_HANDSHAKE_RESPONSE)
    (h3 : body.accepted = true) :
    performHandshake (HandshakeOutcome.read n tag body) st =
      (true, { st with server_info := storeServerInfo body }) := by
  subst h1
  subst h2
  have hred : performHandshake
      (HandshakeOutcome.read SIZEOF_HANDSHAKE_RESPONSE
        TAG_HANDSHAKE_RESPONSE body) st =
      (if SIZEOF_HANDSHAKE_RESPONSE ≠ SIZEOF_HANDSHAKE_RESPONSE then
        (false, setError st "Invalid handshake response")
      else if TAG_HANDSHAKE_RESPONSE ≠ TAG_HANDSHAKE_RESPONSE then
        (false, setError st "Unexpected message type in handshake")
      else if !body.accepted then
        (false, setError st "Handshake rejected by server (protocol version mismatch?)")
      else
        (true, { st with server_info := storeServerInfo body })) := rfl
  rw [hred, if_neg (by simp), if_neg (by simp), if_neg (by simp [h3])]

/-- C3 amended: disconnect releases the socket and the shared-memory
mapping and sets state Disconnected, but it retains the cached
ServerInfo from the last handshake (the stale value stays readable);
the ServerInfo is only replaced — wholesale, every field taken from the
new response with no dependence on the previous value — by the next
successful connect handshake. -/
theorem disconnect_retains_server_info_until_reconnect
    (st : ClientState) :
    ((disconnect st).1.server_info = st.server_info ∧
     (disconnect st).1.shm = none ∧
     (disconnect st).1.socket_open = false ∧
     (disconnect st).1.state = ConnectionState.Disconnected) ∧
    (∀ (env : ConnectEnv) (st1 : ClientState) (n tag : Nat)
        (body : HandshakeResponseBody),
      env.handshake = HandshakeOutcome.read n tag body →
      st1.state ≠ ConnectionState.Connected →
      (connect env st1).1 = true →
      (connect env st1).2.server_info = storeServerInfo body) := by
  constructor
  · exact ⟨rfl, rfl, rfl, rfl⟩
  · intro env st1 n tag body hh hnc hok
    obtain ⟨sock, shmr, hsk⟩ := env
    simp only at hh
    subst hh
    cases sock with
    | false => simp [connect, hnc] at hok
    | true =>
      cases shmr with
      | none => simp [connect, hnc] at hok
      | some region =>
        by_cases h1 : n = SIZEOF_HANDSHAKE_RESPONSE
        case neg =>
          have hfail : handshakeFailureMode
              (HandshakeOutcome.read n tag body) = true := by
            simp [handshakeFailureMode, h1]
          rw [connect_eq_of_handshake st1 region _ hnc,
            (performHandshake_fail_shape _ _ hfail).1] at hok
          simp at hok
        case pos =>
        by_cases h2 : tag = TAG_HANDSHAKE_RESPONSE
        case neg =>
          have hfail : handshakeFailureMode
              (HandshakeOutcome.read n tag body) = true := by
            simp [handshakeFailureMode, h2]
          rw [connect_eq_of_handshake st1 region _ hnc,
            (performHandshake_fail_shape _ _ hfail).1] at hok
          simp at hok
        case pos =>
        by_cases h3 : body.accepted = true
        case neg =>
          have hfail : handshakeFailureMode
              (HandshakeOutcome.read n tag body) = true := by
            simp [handshakeFailureMode, h3]
          rw [connect_eq_of_handshake st1 region _ hnc,
            (performHandshake_fail_shape _ _ hfail).1] at hok
          simp at hok
        case pos =>
          rw [connect_eq_of_handshake st1 region _ hnc,
            performHandshake_read_success n tag body _ h1 h2 h3]
          rfl

/-- Witness for the C3 amended theorem at the concrete fixtures. -/
theorem disconnect_retains_server_info_until_reconnect_witness :
    ((disconnect stConn).1.server_info = stConn.server_info ∧
     (disconnect stConn).1.shm = none ∧
     (disconnect stConn).1.socket_open = false ∧
     (disconnect stConn).1.state = ConnectionState.Disconnected) ∧
    (connect env0 stInit).2.server_info = storeServerInfo body0 :=
  ⟨(disconnect_retains_server_info_until_reconnect stConn).1,
   (disconnect_retains_server_info_until_reconnect stConn).2 env0 stInit
     SIZEOF_HANDSHAKE_RESPONSE TAG_HANDSHAKE_RESPONSE body0 rfl
     (by decide) (by decide)⟩

/-- C7: every handshake failure mode — timeout, short response,
unexpected type tag, accepted == false — makes connect fail
identically: it returns false, state becomes Error, the last-error
string is non-empty, and both the socket and the shared-memory mapping
are released (no region left mapped). -/
theorem connect_handshake_failure (env : ConnectEnv) (st : ClientState)
    (region : ShmRegion)
    (hnc : st.state ≠ ConnectionState.Connected)
    (hsock : env.socket_ok = true)
    (hshm : env.shm_region = some region)
    (hfail : handshakeFailureMode env.handshake = true) :
    (connect env st).1 = false ∧
    (connect env st).2.state = ConnectionState.Error ∧
    (connect env st).2.last_error ≠ "" ∧
    (connect env st).2.shm = none ∧
    (connect env st).2.socket_open = false := by
  obtain ⟨sock, shmr, hsk⟩ := env
  simp only at hsock hshm hfail
  subst hsock
  subst hshm
  obtain ⟨hr1, hrerr, _, _, _⟩ :=
    performHandshake_fail_shape hsk (midState st region) hfail
  rw [connect_eq_of_handshake st region hsk hnc, hr1]
  exact ⟨rfl, rfl, hrerr, rfl, rfl⟩

/-- Witness for C7: the spec's example scenario, a response with
accepted == false, at the concrete fixtures. -/
theorem connect_handshake_failure_witness :
    (connect
        { socket_ok := true, shm_region := some region0,
          handshake := HandshakeOutcome.read SIZEOF_HANDSHAKE_RESPONSE
            TAG_HANDSHAKE_RESPONSE
            { body0 with accepted := false } }
        stInit).1 = false ∧
    (connect
        { socket_ok := true, shm_region := some region0,
          handshake := HandshakeOutcome.read SIZEOF_HANDSHAKE_RESPONSE
            TAG_HANDSHAKE_RESPONSE
            { body0 with accepted := false } }
        stInit).2.state = ConnectionState.Error ∧
    (connect
        { socket_ok := true, shm_region := some region0,
          handshake := HandshakeOutcome.read SIZEOF_HANDSHAKE_RESPONSE
            TAG_HANDSHAKE_RESPONSE
            { body0 with accepted := false } }
        stInit).2.last_error ≠ "" ∧
    (connect
        { socket_ok := true, shm_region := some region0,
          handshake := HandshakeOutcome.read SIZEOF_HANDSHAKE_RESPONSE
            TAG_HANDSHAKE_RESPONSE
            { body0 with accepted := false } }
        stInit).2.shm = none ∧
    (connect
        { socket_ok := true, shm_region := some region0,
          handshake := HandshakeOutcome.read SIZEOF_HANDSHAKE_RESPONSE
            TAG_HANDSHAKE_RESPONSE
            { body0 with accepted := false } }
        stInit).2.socket_open = false :=
  connect_handshake_failure
    { socket_ok := true, shm_region := some region0,
      handshake := HandshakeOutcome.read SIZEOF_HANDSHAKE_RESPONSE
        TAG_HANDSHAKE_RESPONSE { body0 with accepted := false } }
    stInit region0 (by decide) rfl rfl (by decide)

/-- Classifier of channel events that are DetectionResult messages. -/
def isDetectionResultEvent : Event → Bool
  | Event.msg (Msg.detectionResult _ _ _ _) => true
  | _ => false

/-- Classifier of channel events that are full messages whose type tag
is not HEARTBEAT. -/
def isNonHeartbeatMsgEvent : Event → Bool
  | Event.msg m => m.tag != TAG_HEARTBEAT
  | Event.closed => false

/-- The bounded wait consumes and discards any block of DetectionResult
messages that fits in the remaining attempts and then matches the
heartbeat reply behind them, leaving the rest of the channel intact. -/
theorem heartbeatLoop_skips_results (st : ClientState) (t : Nat)
    (rest : List Event) :
    ∀ (ds : List Event) (fuel : Nat), ds.length < fuel →
      (∀ e ∈ ds, isDetectionResultEvent e = true) →
      heartbeatLoop fuel st (ds ++ Event.msg (Msg.heartbeat t) :: rest) =
        (true, st, rest) := by
  intro ds
  induction ds with
  | nil =>
    intro fuel hlen _
    cases fuel with
    | zero => omega
    | succ m => rfl
  | cons e ds2 ih =>
    intro fuel hlen hall
    have he := hall e (List.mem_cons_self e ds2)
    cases e with
    | closed => simp [isDetectionResultEvent] at he
    | msg m =>
      cases m with
      | heartbeat ts => simp [isDetectionResultEvent] at he
      | handshakeResponse body => simp [isDetectionResultEvent] at he
      | shutdown => simp [isDetectionResultEvent] at he
      | other tg => simp [isDetectionResultEvent] at he
      | detectionResult fid tm num arr =>
        cases fuel with
        | zero => simp at hlen
        | succ mfuel =>
          have hstep :
              heartbeatLoop (mfuel + 1) st
                ((Event.msg (Msg.detectionResult fid tm num arr) :: ds2) ++
                  Event.msg (Msg.heartbeat t) :: rest) =
              heartbeatLoop mfuel st
                (ds2 ++ Event.msg (Msg.heartbeat t) :: rest) := rfl
          rw [hstep]
          refine ih mfuel ?_ ?_
          · simp at hlen
            omega
          · intro x hx
            exact hall x (List.mem_cons_of_mem _ hx)

/-- When every one of the next fuel pending events is a full message
whose tag is not HEARTBEAT, the bounded wait consumes fuel of them and
fails. -/
theorem heartbeatLoop_fail_nonheartbeat (st : ClientState) :
    ∀ (fuel : Nat) (chan : List Event), fuel ≤ chan.length →
      (∀ e ∈ chan.take fuel, isNonHeartbeatMsgEvent e = true) →
      (heartbeatLoop fuel st chan).1 = false := by
  intro fuel
  induction fuel with
  | zero => intro chan _ _; rfl
  | succ m ih =>
    intro chan hlen hall
    cases chan with
    | nil => simp at hlen
    | cons e rest =>
      have he := hall e (by
        rw [List.take_succ_cons]
        exact List.mem_cons_self e (rest.take m))
      cases e with
      | closed => simp [isNonHeartbeatMsgEvent] at he
      | msg mm =>
        have hne : mm.tag ≠ TAG_HEARTBEAT := by
          simpa [isNonHeartbeatMsgEvent] using he
        have hstep : heartbeatLoop (m + 1) st (Event.msg mm :: rest) =
            if mm.tag = TAG_HEARTBEAT then (true, st, rest)
            else if mm.tag = TAG_DETECTION_RESULT then
              heartbeatLoop m st rest
            else heartbeatLoop m st rest := rfl
        rw [hstep, if_neg hne, ite_self]
        refine ih rest ?_ ?_
        · simp at hlen
          omega
        · intro x hx
          refine hall x ?_
          rw [List.take_succ_cons]
          exact List.mem_cons_of_mem _ hx

/-- C4: for a connected session (with the heartbeat send succeeding), a
Heartbeat reply preceded by up to 4 DetectionResult messages is still
matched within the 5 peek-and-consume attempts: the interleaved results
are consumed and discarded and sendHeartbeat returns success, leaving
the channel after the reply untouched.  When the first 6 pending
messages are all non-heartbeat, the attempts are exhausted and the
heartbeat fails; a read timeout (no pending data) and a zero-byte read
(peer closed) also fail. -/
theorem sendHeartbeat_bounded_peek (st : ClientState)
    (hc : st.state = ConnectionState.Connected) :
    (∀ (ds : List Event) (t : Nat) (rest : List Event),
        ds.length ≤ 4 →
        (∀ e ∈ ds, isDetectionResultEvent e = true) →
        sendHeartbeat true st (ds ++ Event.msg (Msg.heartbeat t) :: rest) =
          (true, st, rest)) ∧
    (∀ chan : List Event, 6 ≤ chan.length →
        (∀ e ∈ chan.take 6, isNonHeartbeatMsgEvent e = true) →
        (sendHeartbeat true st chan).1 = false) ∧
    ((sendHeartbeat true st []).1 = false) ∧
    (∀ rest : List Event,
        (sendHeartbeat true st (Event.closed :: rest)).1 = false) := by
  have hsend : ∀ chan : List Event,
      sendHeartbeat true st chan = heartbeatLoop 5 st chan := by
    intro chan
    unfold sendHeartbeat
    rw [if_neg (by simp [hc])]
    rfl
  refine ⟨?_, ?_, ?_, ?_⟩
  · intro ds t rest hlen hall
    rw [hsend]
    exact heartbeatLoop_skips_results st t rest ds 5 (by omega) hall
  · intro chan hlen hall
    rw [hsend]
    refine heartbeatLoop_fail_nonheartbeat st 5 chan (by omega) ?_
    intro x hx
    refine hall x ?_
    have h55 : (chan.take 6).take 5 = chan.take 5 := by
      rw [List.take_take]
      norm_num
    rw [← h55] at hx
    exact List.take_subset 5 (chan.take 6) hx
  · rw [hsend]
    rfl
  · intro rest
    rw [hsend]
    rfl

/-- Witness for C4 at concrete inputs: 4 interleaved results before the
reply succeed; 6 pending Shutdown messages, an empty channel, and a
peer close all fail. -/
theorem sendHeartbeat_bounded_peek_witness :
    (sendHeartbeat true stConn
        ([Event.msg (Msg.detectionResult 1 1 0 []),
          Event.msg (Msg.detectionResult 2 1 0 []),
          Event.msg (Msg.detectionResult 3 1 0 []),
          Event.msg (Msg.detectionResult 4 1 0 [])] ++
          Event.msg (Msg.heartbeat 7) :: [Event.closed]) =
      (true, stConn, [Event.closed])) ∧
    ((sendHeartbeat true stConn
        (List.replicate 6 (Event.msg Msg.shutdown))).1 = false) ∧
    ((sendHeartbeat true stConn []).1 = false) ∧
    ((sendHeartbeat true stConn [Event.closed]).1 = false) :=
  have H := sendHeartbeat_bounded_peek stConn (by decide)
  ⟨H.1 [Event.msg (Msg.detectionResult 1 1 0 []),
        Event.msg (Msg.detectionResult 2 1 0 []),
        Event.msg (Msg.detectionResult 3 1 0 []),
        Event.msg (Msg.detectionResult 4 1 0 [])] 7 [Event.closed]
      (by decide) (by decide),
   H.2.1 (List.replicate 6 (Event.msg Msg.shutdown)) (by decide)
      (by decide),
   H.2.2.1,
   H.2.2.2 [Event.closed]⟩

end RobotVision
